import Mathlib

/-!
A verification development for the Arenta task tracker.

Shallow embedding conventions:
* A timestamp (Rust `DateTime<Local>`) is modelled as a whole number of
  seconds of local civil time (`Int`).  The repository only ever compares
  timestamps, takes their calendar date, and measures whole-minute gaps, so a
  fixed-offset local clock with second precision is a faithful model.
* A calendar date (Rust `NaiveDate`) is modelled as a day index (`Int`);
  `date_naive` on a timestamp is floor division by 86400.
* Rust's `i64` division truncates toward zero, hence `Int.tdiv` below;
  `chrono::Duration::num_minutes` also truncates toward zero, hence a second
  `Int.tdiv` by 60.
* `Option.unwrap()` on a value that can be `None` (a Rust panic) is modelled
  by returning `none` from the enclosing function, so a panicking comparison
  is distinguishable from one that returns a boolean.
* The mutable global "now" (`Local::now()`) is passed explicitly.
-/

namespace Arenta

/-- Calendar date (day index) of a timestamp, as `DateTime::date_naive`. -/
def dateNaive (dt : Int) : Int := Int.fdiv dt 86400

/-- The five task phases of `task.rs`. -/
inductive TaskStatus where
  | backlog
  | planned
  | overdue
  | ongoing
  | complete
deriving DecidableEq

/-- The task record of `task.rs`.  Timestamps are optional seconds. -/
structure Task where
  description : String
  planned_start : Option Int
  planned_complete : Option Int
  actual_start : Option Int
  actual_complete : Option Int
  status : TaskStatus
  is_deleted : Bool
deriving DecidableEq

/-- `Task::update_status`: recompute the cached status from the four
timestamps and the current instant `now`, mirroring the if-cascade of the
source (`map(|dt| dt < now).unwrap_or(false)` at each step). -/
def Task.update_status (t : Task) (now : Int) : Task :=
  { t with status :=
      if (t.actual_complete.map fun dt => decide (dt < now)).getD false then
        TaskStatus.complete
      else if (t.actual_start.map fun dt => decide (dt < now)).getD false then
        TaskStatus.ongoing
      else if (t.planned_start.map fun dt => decide (dt < now)).getD false then
        TaskStatus.overdue
      else if t.planned_start.isSome then
        TaskStatus.planned
      else
        TaskStatus.backlog }

/-- The status derivation exactly as the specification words it:
five top-down rules, earlier rules taking precedence. -/
def specDerivedStatus (now : Int) (t : Task) : TaskStatus :=
  if t.actual_complete.any fun ac => decide (ac < now) then TaskStatus.complete
  else if t.actual_start.any fun a => decide (a < now) then TaskStatus.ongoing
  else if t.planned_start.any fun p => decide (p < now) then TaskStatus.overdue
  else if t.planned_start.isSome then TaskStatus.planned
  else TaskStatus.backlog

/-- Descending priority class order of the five phases:
Overdue > Ongoing > Planned > Complete > Backlog. -/
def statusRank : TaskStatus → Nat
  | TaskStatus.backlog => 0
  | TaskStatus.complete => 1
  | TaskStatus.planned => 2
  | TaskStatus.ongoing => 3
  | TaskStatus.overdue => 4

/-- `Task::has_higher_priority_than`.  The source calls `.unwrap()` on the
tie-break timestamps; an `unwrap` of `None` panics in Rust and is modelled
here as the result `none` (no boolean is returned). -/
def Task.has_higher_priority_than (a b : Task) : Option Bool :=
  match a.status with
  | TaskStatus.overdue =>
    if b.status = TaskStatus.overdue then
      match a.planned_start, b.planned_start with
      | some x, some y => some (decide (x < y))
      | _, _ => none
    else some true
  | TaskStatus.ongoing =>
    if b.status = TaskStatus.ongoing then
      match a.actual_start, b.actual_start with
      | some x, some y => some (decide (x > y))
      | _, _ => none
    else some (decide (b.status ≠ TaskStatus.overdue))
  | TaskStatus.planned =>
    if b.status = TaskStatus.planned then
      match a.planned_start, b.planned_start with
      | some x, some y => some (decide (x < y))
      | _, _ => none
    else some (decide (b.status = TaskStatus.complete ∨ b.status = TaskStatus.backlog))
  | TaskStatus.complete =>
    if b.status = TaskStatus.complete then
      match a.actual_complete, b.actual_complete with
      | some x, some y => some (decide (x > y))
      | _, _ => none
    else some (decide (b.status = TaskStatus.backlog))
  | TaskStatus.backlog => some false

/-- The five date comparison operators of `command.rs`. -/
inductive DateFilterOp where
  | earlier
  | earlierEqual
  | equal
  | later
  | laterEqual
deriving DecidableEq

/-- The list options of `command.rs` (reference date as a day index). -/
structure ListOption where
  date_filter : DateFilterOp × Int
  include_backlog : Bool
  is_verbose : Bool
  has_timeline : Bool
deriving DecidableEq

/-- `compare_date` of `task.rs`: an unset timestamp never compares true;
a set timestamp compares by its date-only component. -/
def compare_date (self_dt : Option Int) (op : DateFilterOp) (date : Int) : Bool :=
  match self_dt with
  | none => false
  | some dt =>
    match op with
    | DateFilterOp.earlier => decide (dateNaive dt < date)
    | DateFilterOp.earlierEqual => decide (dateNaive dt ≤ date)
    | DateFilterOp.equal => decide (dateNaive dt = date)
    | DateFilterOp.later => decide (date < dateNaive dt)
    | DateFilterOp.laterEqual => decide (date ≤ dateNaive dt)

/-- `Task::satisfy`: a Backlog task is governed solely by `include_backlog`;
any other task satisfies the filter when any of its four timestamps
compares true under the date filter. -/
def Task.satisfy (t : Task) (option : ListOption) : Bool :=
  match t.status with
  | TaskStatus.backlog => option.include_backlog
  | _ =>
    let (op, date) := option.date_filter
    compare_date t.planned_start op date
      || compare_date t.planned_complete op date
      || compare_date t.actual_start op date
      || compare_date t.actual_complete op date

/-- The filter predicate exactly as the claim words it: a plain disjunction
of the backlog case and the four date comparisons. -/
def specSatisfy (t : Task) (o : ListOption) : Bool :=
  (decide (t.status = TaskStatus.backlog) && o.include_backlog)
    || compare_date t.planned_start o.date_filter.1 o.date_filter.2
    || compare_date t.planned_complete o.date_filter.1 o.date_filter.2
    || compare_date t.actual_start o.date_filter.1 o.date_filter.2
    || compare_date t.actual_complete o.date_filter.1 o.date_filter.2

/-- `Task::start`: record the actual start and mark the task ongoing. -/
def Task.start (t : Task) (now : Int) : Task :=
  { t with actual_start := some now, status := TaskStatus.ongoing }

/-- `Task::complete`: record the actual completion and mark the task done. -/
def Task.complete (t : Task) (now : Int) : Task :=
  { t with actual_complete := some now, status := TaskStatus.complete }

/-- `Task::delete`: flip the soft-delete marker. -/
def Task.delete (t : Task) : Task :=
  { t with is_deleted := true }

/-- The message printed by the manager for a bad index. -/
def indexOutOfRange : String := "index out of range"

/-- `Manager::start_task`: out-of-range indices are reported and leave the
collection untouched; otherwise the indexed task is started in place. -/
def start_task (now : Int) (index : Nat) (tasks : List Task) :
    List Task × Option String :=
  if tasks.length ≤ index then (tasks, some indexOutOfRange)
  else (List.modify (fun t => t.start now) index tasks, none)

/-- `Manager::complete_task`. -/
def complete_task (now : Int) (index : Nat) (tasks : List Task) :
    List Task × Option String :=
  if tasks.length ≤ index then (tasks, some indexOutOfRange)
  else (List.modify (fun t => t.complete now) index tasks, none)

/-- `Manager::delete_task`: the surrounding command flow removes the record
from the collection (`Vec::remove`). -/
def delete_task (index : Nat) (tasks : List Task) :
    List Task × Option String :=
  if tasks.length ≤ index then (tasks, some indexOutOfRange)
  else (tasks.eraseIdx index, none)

/-- The three choices offered for each timestamp group during an edit. -/
inductive EditOperation where
  | ignore
  | reset
  | update
deriving DecidableEq

/-- The interactive answers consumed by `Manager::edit_task`, gathered into
one record so the edit becomes a pure function. -/
structure EditInput where
  new_description : String
  planned_op : EditOperation
  planned_pair : Option Int × Option Int
  actual_start_op : EditOperation
  actual_start_val : Int
  actual_complete_op : EditOperation
  actual_complete_val : Int
deriving DecidableEq

/-- `Manager::edit_task`: out-of-range indices are reported before any
prompt and leave the collection untouched; otherwise the description and the
three timestamp groups are updated per the answers and the status is
recomputed. -/
def edit_task (now : Int) (input : EditInput) (index : Nat)
    (tasks : List Task) : List Task × Option String :=
  if tasks.length ≤ index then (tasks, some indexOutOfRange)
  else
    let editOne := fun (task : Task) =>
      let task :=
        if input.new_description.isEmpty then task
        else { task with description := input.new_description }
      let task :=
        match input.planned_op with
        | EditOperation.ignore => task
        | EditOperation.reset =>
          { task with planned_start := none, planned_complete := none }
        | EditOperation.update =>
          { task with planned_start := input.planned_pair.1,
                      planned_complete := input.planned_pair.2 }
      let task :=
        match input.actual_start_op with
        | EditOperation.ignore => task
        | EditOperation.reset => { task with actual_start := none }
        | EditOperation.update =>
          { task with actual_start := some input.actual_start_val }
      let task :=
        match input.actual_complete_op with
        | EditOperation.ignore => task
        | EditOperation.reset => { task with actual_complete := none }
        | EditOperation.update =>
          { task with actual_complete := some input.actual_complete_val }
      task.update_status now
    (List.modify editOne index tasks, none)

/-- A concrete task used to instantiate hypotheses of several theorems:
both its completion and its planned start lie in the past of instant 10. -/
def exDoneLate : Task :=
  { description := ""
    planned_start := some 3
    planned_complete := some 4
    actual_start := some 4
    actual_complete := some 5
    status := TaskStatus.backlog
    is_deleted := false }

/-- A blank task, mirroring the test template of `task.rs`. -/
def taskTemplate : Task :=
  { description := ""
    planned_start := none
    planned_complete := none
    actual_start := none
    actual_complete := none
    status := TaskStatus.planned
    is_deleted := false }

/-- A concrete overdue task. -/
def exOverdue : Task :=
  { taskTemplate with status := TaskStatus.overdue, planned_start := some (-5) }

/-- A concrete ongoing task. -/
def exOngoing : Task :=
  { taskTemplate with status := TaskStatus.ongoing, actual_start := some 2 }

/-- A concrete planned task starting at instant 5. -/
def exPlannedA : Task :=
  { taskTemplate with planned_start := some 5 }

/-- A concrete planned task starting at instant 9. -/
def exPlannedB : Task :=
  { taskTemplate with planned_start := some 9 }

/-- A planned-status task whose planned start is unset. -/
def exPlannedUnset : Task := taskTemplate

/-- A backlog-status task that nevertheless carries a timestamp (reachable
via an edit that sets a future actual start and clears the schedule). -/
def exBacklogWithTs : Task :=
  { taskTemplate with status := TaskStatus.backlog, actual_start := some 100 }

/-- A filter selecting day 0 exactly, with backlog tasks excluded. -/
def exFilterEqualDay0 : ListOption :=
  { date_filter := (DateFilterOp.equal, 0)
    include_backlog := false
    is_verbose := false
    has_timeline := false }

/-- Edit answers that leave everything unchanged. -/
def exEditInput : EditInput :=
  { new_description := ""
    planned_op := EditOperation.ignore
    planned_pair := (none, none)
    actual_start_op := EditOperation.ignore
    actual_start_val := 0
    actual_complete_op := EditOperation.ignore
    actual_complete_val := 0 }

/-- The terminal colors the renderer uses (the named red of the now cursor
and the truecolor palette of the five phases). -/
inductive Color where
  | red
  | trueColor (r g b : Nat)
deriving DecidableEq

/-- `Task::color_of_status`: the fixed five-way phase-to-color mapping. -/
def Task.color_of_status (t : Task) : Color :=
  match t.status with
  | TaskStatus.backlog => Color.trueColor 128 128 128
  | TaskStatus.planned => Color.trueColor 51 255 255
  | TaskStatus.overdue => Color.trueColor 255 102 102
  | TaskStatus.ongoing => Color.trueColor 255 255 102
  | TaskStatus.complete => Color.trueColor 51 255 51

/-- One canvas cell of `timeline.rs`: a glyph and an optional color. -/
structure Pixel where
  content : Char
  color : Option Color
deriving DecidableEq

/-- `Pixel::default`: a blank cell. -/
def Pixel.default : Pixel := { content := ' ', color := none }

/-- `Pixel::is_empty`: a cell is empty when its glyph is the space. -/
def Pixel.isEmpty (p : Pixel) : Bool := decide (p.content = ' ')

/-- The fixed canvas width of `timeline.rs`. -/
def UI_MAX_WIDTH : Nat := 73

/-- `get_pos_in_row`: the column of a timestamp.  The source subtracts
08:00 of the current day (`Local::now().date_naive()`), takes the
whole-minute count of the difference (truncating toward zero, as
`chrono::Duration::num_minutes` does) and divides by the 10-minute tick
with Rust's truncating 64-bit division. -/
def get_pos_in_row (now dt : Int) : Int :=
  let start_of_day := Int.fdiv now 86400 * 86400 + 8 * 3600
  Int.tdiv (Int.tdiv (dt - start_of_day) 60) 10

/-- The projector exactly as the specification words it: the floor of
(minutes since 08:00 local time on the timestamp's own calendar day)
divided by 10. -/
def specPosInRow (dt : Int) : Int :=
  Int.fdiv (dt - (Int.fdiv dt 86400 * 86400 + 8 * 3600)) 600

/-- The clamp applied by `populate_index_and_line` before drawing:
`clamp(1, UI_MAX_WIDTH as i64 - 1)`. -/
def clampPos (p : Int) : Int := max 1 (min p ((UI_MAX_WIDTH : Int) - 1))

/-- The clamp as the claim words it: onto the range [1, width - 2]. -/
def specClamp (p : Int) : Int := max 1 (min p ((UI_MAX_WIDTH : Int) - 2))

/-- `Timeline::new_row`: a fresh blank row of canvas width. -/
def new_row : List Pixel := List.replicate UI_MAX_WIDTH Pixel.default

/-- `can_put_in_row`: the target columns of the interval, inclusive of one
extra column to the left for the task's letter, must all be empty. -/
def can_put_in_row (row : List Pixel) (start_pos end_pos : Nat) : Bool :=
  ((row.drop (start_pos - 1)).take (end_pos + 1 - (start_pos - 1))).all
    Pixel.isEmpty

/-- `Timeline::put_in_row`: splice the interval's glyph over the target
columns. -/
def put_in_row (row : List Pixel) (start_pos end_pos : Nat) (pixel : Pixel) :
    List Pixel :=
  row.take start_pos ++ List.replicate (end_pos - start_pos + 1) pixel
    ++ row.drop (end_pos + 1)

/-- The combined row update of `populate_index_and_line`: fill the interval
columns, then write the task's letter immediately left of the start. -/
def draw_row (row : List Pixel) (s e : Nat) (index : Char) (pixel : Pixel) :
    List Pixel :=
  (put_in_row row s e pixel).set (s - 1) { content := index, color := pixel.color }

/-- `Iterator::position`: the index of the first element satisfying the
predicate, if any. -/
def position {α : Type} (p : α → Bool) : List α → Option Nat
  | [] => none
  | x :: xs => if p x then some 0 else (position p xs).map (· + 1)

/-- `Timeline::populate_index_and_line`: clamp both endpoints, place the
interval in the first fitting row (appending a fresh row when none fits),
and draw the glyphs plus the letter.  Also returns the chosen row index
(the source's local `row` variable). -/
def populate_index_and_line (canvas : List (List Pixel)) (start_pos end_pos : Int)
    (index : Char) (pixel : Pixel) : List (List Pixel) × Nat :=
  let s := (clampPos start_pos).toNat
  let e := (clampPos end_pos).toNat
  match position (fun row => can_put_in_row row s e) canvas with
  | some r => (canvas.set r (draw_row (canvas.getD r []) s e index pixel), r)
  | none => (canvas ++ [draw_row new_row s e index pixel], canvas.length)

/-- The timeline state of `timeline.rs` (the borrowed task list is passed
separately to the populate functions). -/
structure Timeline where
  canvas : List (List Pixel)
  date : Int
  pos_of_now : Option Int
deriving DecidableEq

/-- `Timeline::date_includes`: the optional timestamp is set and its
calendar date is the target date. -/
def Timeline.date_includes (tl : Timeline) (datetime : Option Int) : Bool :=
  match datetime with
  | some dt => decide (dateNaive dt = tl.date)
  | none => false

/-- The end column of the strong (actual) interval, extracted verbatim from
`populate_task`: `actual_complete.map_or(pos_of_now.unwrap_or(W-1), pos)`. -/
def actual_end_pos (now : Int) (tl : Timeline) (task : Task) : Int :=
  match task.actual_complete with
  | some dt => get_pos_in_row now dt
  | none => tl.pos_of_now.getD ((UI_MAX_WIDTH : Int) - 1)

/-- The end column of the strong interval as the claim words it:
actual_complete's column if set AND on the target date, else now's column
if the target date is today, else the right edge. -/
def specActualEndPos (now : Int) (tl : Timeline) (task : Task) : Int :=
  if tl.date_includes task.actual_complete then
    get_pos_in_row now (task.actual_complete.getD 0)
  else
    match tl.pos_of_now with
    | some p => p
    | none => (UI_MAX_WIDTH : Int) - 1

/-- `Timeline::populate_task`: queue the planned (light, glyph dash) and
actual (strong, glyph equals-sign) intervals of one task for placement.
The `.getD 0` reads model `.unwrap()` calls guarded by `date_includes`. -/
def populate_task (now : Int) (tl : Timeline) (task : Task) (index : Char) :
    Timeline :=
  if task.is_deleted then tl
  else
    let tl :=
      if tl.date_includes task.planned_start
          && tl.date_includes task.planned_complete then
        { tl with canvas :=
            (populate_index_and_line tl.canvas
              (get_pos_in_row now (task.planned_start.getD 0))
              (get_pos_in_row now (task.planned_complete.getD 0))
              index { content := '-', color := some task.color_of_status }).1 }
      else tl
    if tl.date_includes task.actual_start then
      { tl with canvas :=
          (populate_index_and_line tl.canvas
            (get_pos_in_row now (task.actual_start.getD 0))
            (actual_end_pos now tl task)
            index { content := '=', color := some task.color_of_status }).1 }
    else if tl.date_includes task.actual_complete then
      { tl with canvas :=
          (populate_index_and_line tl.canvas 1
            (get_pos_in_row now (task.actual_complete.getD 0))
            index { content := '=', color := some task.color_of_status }).1 }
    else tl

/-- `Timeline::new`: an empty canvas for the target date; the now cursor
position is recorded only when the target date is today. -/
def Timeline.new (now : Int) (date : Int) : Timeline :=
  { canvas := []
    date := date
    pos_of_now :=
      if dateNaive now = date then some (get_pos_in_row now now) else none }

/-- An anonymous light-interval pixel used to instantiate theorems. -/
def dashPixel : Pixel := { content := '-', color := none }

/-- A task that ran 07:30 to 08:10 on day 0 (the claim C4 example). -/
def exEarlyTask : Task :=
  { taskTemplate with
      status := TaskStatus.complete
      actual_start := some 27000
      actual_complete := some 29400 }

/-- The canvas produced by rendering the 07:30 to 08:10 task on day 0 with
now at noon of day 0. -/
def exEarlyCanvas : List (List Pixel) :=
  (populate_task 43200 (Timeline.new 43200 0) exEarlyTask 'a').canvas

/-- A task started at 10:00 on day 0 and completed at 09:00 on day 1. -/
def exSpanTask : Task :=
  { taskTemplate with
      status := TaskStatus.complete
      actual_start := some 36000
      actual_complete := some 118800 }

/-- A task planned 09:00 to 10:00 on day 0. -/
def exPlanned9to10 : Task :=
  { taskTemplate with
      planned_start := some 32400
      planned_complete := some 36000 }

/-- A task planned 10:10 to 11:00 on day 0; its time interval is disjoint
from the 09:00 to 10:00 one. -/
def exPlanned1010to11 : Task :=
  { taskTemplate with
      planned_start := some 36600
      planned_complete := some 39600 }

/-- The canvas produced by rendering the two disjoint planned tasks of day
0 in order, with now at noon of day 0. -/
def exTwoTaskCanvas : List (List Pixel) :=
  (populate_task 43200
    (populate_task 43200 (Timeline.new 43200 0) exPlanned9to10 'a')
    exPlanned1010to11 'b').canvas

/-- Claim C1: update_status derives the status by the five top-down rules
with earlier rules taking precedence; in particular a task with both
actual_complete and planned_start in the past is Complete, not Overdue. -/
theorem C1_update_status_rules (now : Int) (t : Task) :
    (t.update_status now).status = specDerivedStatus now t ∧
    (∀ ac ps, t.actual_complete = some ac → ac < now →
      t.planned_start = some ps → ps < now →
      (t.update_status now).status = TaskStatus.complete) := by
  constructor
  · cases hac : t.actual_complete <;> cases has : t.actual_start <;>
      cases hps : t.planned_start <;>
      simp [Task.update_status, specDerivedStatus, hac, has, hps]
  · intro ac ps hac hlt hps hlt'
    simp [Task.update_status, hac, hlt]

/-- Witness for C1 at a concrete task and instant. -/
theorem C1_update_status_rules_witness :
    (exDoneLate.update_status 10).status = specDerivedStatus 10 exDoneLate ∧
    (exDoneLate.update_status 10).status = TaskStatus.complete :=
  ⟨(C1_update_status_rules 10 exDoneLate).1,
   (C1_update_status_rules 10 exDoneLate).2 5 3 rfl (by decide) rfl (by decide)⟩

/-- Claim C6: has_higher_priority_than respects the descending class order
Overdue > Ongoing > Planned > Complete > Backlog on every pair of tasks with
distinct statuses (the higher class ranks above, and not conversely), and a
Backlog task never ranks above anything. -/
theorem C6_priority_class_order (a b : Task) :
    (a.status ≠ b.status →
      a.has_higher_priority_than b
        = some (decide (statusRank b.status < statusRank a.status))) ∧
    (a.status = TaskStatus.backlog →
      a.has_higher_priority_than b = some false) := by
  constructor
  · intro h
    cases ha : a.status <;> cases hb : b.status <;>
      simp_all [Task.has_higher_priority_than, statusRank]
  · intro h
    simp [Task.has_higher_priority_than, h]

/-- Witness for C6: an overdue task ranks above an ongoing one and not
conversely, and a backlog task ranks above nothing. -/
theorem C6_priority_class_order_witness :
    exOverdue.has_higher_priority_than exOngoing
      = some (decide (statusRank exOngoing.status < statusRank exOverdue.status)) ∧
    exOngoing.has_higher_priority_than exOverdue
      = some (decide (statusRank exOverdue.status < statusRank exOngoing.status)) ∧
    exBacklogWithTs.has_higher_priority_than exOverdue = some false :=
  ⟨(C6_priority_class_order exOverdue exOngoing).1 (by decide),
   (C6_priority_class_order exOngoing exOverdue).1 (by decide),
   (C6_priority_class_order exBacklogWithTs exOverdue).2 (by decide)⟩

/-- Counterexample to C7: with a Planned task whose planned_start is unset
as the left argument against another Planned task, the comparison does not
return false — the source panics on unwrap (modelled as none). -/
theorem C7_counterexample :
    exPlannedUnset.status = TaskStatus.planned ∧
    exPlannedA.status = TaskStatus.planned ∧
    exPlannedUnset.planned_start = none ∧
    exPlannedUnset.has_higher_priority_than exPlannedA ≠ some false := by
  decide

/-- Claim C7 as amended: between two Planned tasks with both planned_starts
set, the earlier planned_start ranks higher (and equal planned_starts lose
in both directions); if either side's planned_start is unset, the
comparison panics on unwrap and returns no boolean at all. -/
theorem C7_planned_tiebreak (a b : Task) (ha : a.status = TaskStatus.planned)
    (hb : b.status = TaskStatus.planned) :
    (∀ x y, a.planned_start = some x → b.planned_start = some y →
      a.has_higher_priority_than b = some (decide (x < y))) ∧
    ((a.planned_start = none ∨ b.planned_start = none) →
      a.has_higher_priority_than b = none) := by
  constructor
  · intro x y hx hy
    simp [Task.has_higher_priority_than, ha, hb, hx, hy]
  · intro h
    rcases h with h | h
    · cases hb' : b.planned_start <;>
        simp [Task.has_higher_priority_than, ha, hb, h, hb']
    · cases ha' : a.planned_start <;>
        simp [Task.has_higher_priority_than, ha, hb, h, ha']

/-- Witness for C7 at concrete planned tasks. -/
theorem C7_planned_tiebreak_witness :
    exPlannedA.has_higher_priority_than exPlannedB = some (decide ((5 : Int) < 9)) ∧
    exPlannedUnset.has_higher_priority_than exPlannedA = none :=
  ⟨(C7_planned_tiebreak exPlannedA exPlannedB rfl rfl).1 5 9 rfl rfl,
   (C7_planned_tiebreak exPlannedUnset exPlannedA rfl rfl).2 (Or.inl rfl)⟩

/-- Counterexample to C8: a Backlog task carrying a timestamp that matches
the date filter does not satisfy the filter when include_backlog is false,
although the claim's if-and-only-if disjunction says it should. -/
theorem C8_counterexample :
    exBacklogWithTs.status = TaskStatus.backlog ∧
    exFilterEqualDay0.include_backlog = false ∧
    compare_date exBacklogWithTs.actual_start exFilterEqualDay0.date_filter.1
      exFilterEqualDay0.date_filter.2 = true ∧
    exBacklogWithTs.satisfy exFilterEqualDay0 = false ∧
    specSatisfy exBacklogWithTs exFilterEqualDay0 = true := by
  decide

/-- Claim C8 as amended: for a Backlog task, satisfy returns include_backlog
and ignores the date filter entirely; for any other task it returns true
exactly when one of the four set timestamps' date components compares true;
in particular a non-Backlog task with no set timestamps never satisfies. -/
theorem C8_satisfy_cases (t : Task) (o : ListOption) :
    (t.status = TaskStatus.backlog → t.satisfy o = o.include_backlog) ∧
    (t.status ≠ TaskStatus.backlog →
      (t.satisfy o = true ↔
        compare_date t.planned_start o.date_filter.1 o.date_filter.2 = true ∨
        compare_date t.planned_complete o.date_filter.1 o.date_filter.2 = true ∨
        compare_date t.actual_start o.date_filter.1 o.date_filter.2 = true ∨
        compare_date t.actual_complete o.date_filter.1 o.date_filter.2 = true)) ∧
    (t.status ≠ TaskStatus.backlog → t.planned_start = none →
      t.planned_complete = none → t.actual_start = none →
      t.actual_complete = none → t.satisfy o = false) := by
  refine ⟨?_, ?_, ?_⟩
  · intro h
    simp [Task.satisfy, h]
  · intro h
    cases ht : t.status <;> simp_all [Task.satisfy, or_assoc]
  · intro h h1 h2 h3 h4
    cases ht : t.status <;> simp_all [Task.satisfy, compare_date]

/-- Witness for C8 at concrete tasks and a concrete filter. -/
theorem C8_satisfy_cases_witness :
    exBacklogWithTs.satisfy exFilterEqualDay0 = exFilterEqualDay0.include_backlog ∧
    (exPlannedUnset.satisfy exFilterEqualDay0 = true ↔
      compare_date exPlannedUnset.planned_start exFilterEqualDay0.date_filter.1
        exFilterEqualDay0.date_filter.2 = true ∨
      compare_date exPlannedUnset.planned_complete exFilterEqualDay0.date_filter.1
        exFilterEqualDay0.date_filter.2 = true ∨
      compare_date exPlannedUnset.actual_start exFilterEqualDay0.date_filter.1
        exFilterEqualDay0.date_filter.2 = true ∨
      compare_date exPlannedUnset.actual_complete exFilterEqualDay0.date_filter.1
        exFilterEqualDay0.date_filter.2 = true) ∧
    exPlannedUnset.satisfy exFilterEqualDay0 = false :=
  ⟨(C8_satisfy_cases exBacklogWithTs exFilterEqualDay0).1 rfl,
   (C8_satisfy_cases exPlannedUnset exFilterEqualDay0).2.1 (by decide),
   (C8_satisfy_cases exPlannedUnset exFilterEqualDay0).2.2 (by decide)
     rfl rfl rfl rfl⟩

/-- Claim C9: start, complete, delete and edit on an index at or past the
number of stored tasks report "index out of range" and leave the task
collection unchanged. -/
theorem C9_out_of_range_noop (now : Int) (input : EditInput) (index : Nat)
    (tasks : List Task) (h : tasks.length ≤ index) :
    start_task now index tasks = (tasks, some indexOutOfRange) ∧
    complete_task now index tasks = (tasks, some indexOutOfRange) ∧
    delete_task index tasks = (tasks, some indexOutOfRange) ∧
    edit_task now input index tasks = (tasks, some indexOutOfRange) := by
  refine ⟨?_, ?_, ?_, ?_⟩ <;>
    simp [start_task, complete_task, delete_task, edit_task, h]

/-- Witness for C9: index 1 on a one-element store. -/
theorem C9_out_of_range_noop_witness :
    start_task 0 1 [exPlannedA] = ([exPlannedA], some indexOutOfRange) ∧
    complete_task 0 1 [exPlannedA] = ([exPlannedA], some indexOutOfRange) ∧
    delete_task 1 [exPlannedA] = ([exPlannedA], some indexOutOfRange) ∧
    edit_task 0 exEditInput 1 [exPlannedA] = ([exPlannedA], some indexOutOfRange) :=
  C9_out_of_range_noop 0 exEditInput 1 [exPlannedA] (by decide)

/-- Claim C10: start mutates only actual_start (to now) and status (to
Ongoing); complete mutates only actual_complete (to now) and status (to
Complete); every other field of the task is left unchanged. -/
theorem C10_start_complete_frame (t : Task) (now : Int) :
    (t.start now).description = t.description ∧
    (t.start now).planned_start = t.planned_start ∧
    (t.start now).planned_complete = t.planned_complete ∧
    (t.start now).actual_complete = t.actual_complete ∧
    (t.start now).is_deleted = t.is_deleted ∧
    (t.start now).actual_start = some now ∧
    (t.start now).status = TaskStatus.ongoing ∧
    (t.complete now).description = t.description ∧
    (t.complete now).planned_start = t.planned_start ∧
    (t.complete now).planned_complete = t.planned_complete ∧
    (t.complete now).actual_start = t.actual_start ∧
    (t.complete now).is_deleted = t.is_deleted ∧
    (t.complete now).actual_complete = some now ∧
    (t.complete now).status = TaskStatus.complete :=
  ⟨rfl, rfl, rfl, rfl, rfl, rfl, rfl, rfl, rfl, rfl, rfl, rfl, rfl, rfl⟩

/-- Truncating division by 60 then by 10 agrees with flooring division by
600 on non-negative offsets. -/
lemma tdiv_tdiv_eq_fdiv (x : Int) (h : 0 ≤ x) :
    Int.tdiv (Int.tdiv x 60) 10 = Int.fdiv x 600 := by
  obtain ⟨n, rfl⟩ := Int.eq_ofNat_of_zero_le h
  have h1 : Int.tdiv (n : Int) 60 = ((n / 60 : Nat) : Int) := rfl
  have h2 : Int.tdiv ((n / 60 : Nat) : Int) 10 = ((n / 60 / 10 : Nat) : Int) := rfl
  rw [h1, h2, Int.fdiv_eq_ediv _ (by norm_num), Nat.div_div_eq_div_mul]
  exact_mod_cast (Int.ofNat_ediv n 600).symm

/-- Counterexample to C3: a timestamp at 07:35 on the same calendar day as
now projects to column -2 (double truncation toward zero), not to
floor(-25 / 10) = -3 as the claim's formula demands. -/
theorem C3_counterexample :
    dateNaive 27300 = dateNaive 43200 ∧
    get_pos_in_row 43200 27300 = -2 ∧
    specPosInRow 27300 = -3 := by
  decide

/-- Claim C3 as amended: the projector measures the offset from 08:00 of
the current day (now's calendar day, not the timestamp's), in whole
minutes truncated toward zero, divided by 10 truncating toward zero; for
timestamps at or after 08:00 of the current day this coincides with
floor(minutes since 08:00 / 10), and in particular 08:00 of the current
day projects to column 0 and 08:10 to column 1. -/
theorem C3_projector (now dt : Int)
    (h : 0 ≤ dt - (Int.fdiv now 86400 * 86400 + 8 * 3600)) :
    get_pos_in_row now dt
      = Int.fdiv (dt - (Int.fdiv now 86400 * 86400 + 8 * 3600)) 600 ∧
    get_pos_in_row now (Int.fdiv now 86400 * 86400 + 8 * 3600) = 0 ∧
    get_pos_in_row now (Int.fdiv now 86400 * 86400 + 8 * 3600 + 600) = 1 := by
  refine ⟨?_, ?_, ?_⟩
  · simpa [get_pos_in_row] using tdiv_tdiv_eq_fdiv _ h
  · simp [get_pos_in_row]
  · have h600 : (Int.fdiv now 86400 * 86400 + 8 * 3600 + 600)
        - (Int.fdiv now 86400 * 86400 + 8 * 3600) = 600 := by ring
    simp only [get_pos_in_row, h600]
    decide

/-- Witness for C3 at now noon of day 0 and the timestamp 08:10 of day 0. -/
theorem C3_projector_witness :
    get_pos_in_row 43200 29400
      = Int.fdiv (29400 - (Int.fdiv 43200 86400 * 86400 + 8 * 3600)) 600 ∧
    get_pos_in_row 43200 (Int.fdiv 43200 86400 * 86400 + 8 * 3600) = 0 ∧
    get_pos_in_row 43200 (Int.fdiv 43200 86400 * 86400 + 8 * 3600 + 600) = 1 :=
  C3_projector 43200 29400 (by decide)

/-- Counterexample to C4: the code clamps drawing columns to
[1, UI_MAX_WIDTH - 1] = [1, 72], not to [1, width - 2] = [1, 71]: a
projected column of 150 is drawn at column 72, which the claim's range
excludes. -/
theorem C4_counterexample :
    clampPos 150 = 72 ∧
    specClamp 150 = 71 ∧
    (((populate_index_and_line [] 150 150 'x'
        { content := '=', color := none }).1.getD 0 []).getD 72
        Pixel.default).isEmpty = false := by
  decide

/-- Claim C4 as amended: both endpoints are clamped onto [1, width - 1]
(width = 73, so columns 1 to 72) before drawing, so out-of-window times
collapse onto the nearest edge column; the 07:30 to 08:10 example stands:
start column -3 clamps to 1 and the strong interval occupies exactly
column 1, with the letter at column 0. -/
theorem C4_clamp_bounds (p : Int) :
    1 ≤ clampPos p ∧
    clampPos p ≤ (UI_MAX_WIDTH : Int) - 1 ∧
    (p < 1 → clampPos p = 1) ∧
    ((UI_MAX_WIDTH : Int) - 1 < p → clampPos p = (UI_MAX_WIDTH : Int) - 1) ∧
    (1 ≤ p → p ≤ (UI_MAX_WIDTH : Int) - 1 → clampPos p = p) ∧
    get_pos_in_row 43200 27000 = -3 ∧
    get_pos_in_row 43200 29400 = 1 ∧
    ((exEarlyCanvas.getD 0 []).getD 0 Pixel.default).content = 'a' ∧
    ((exEarlyCanvas.getD 0 []).getD 1 Pixel.default).content = '=' ∧
    ((exEarlyCanvas.getD 0 []).getD 2 Pixel.default).isEmpty = true := by
  refine ⟨?_, ?_, ?_, ?_, ?_, by decide, by decide, by decide, by decide,
    by decide⟩ <;>
  · simp only [clampPos, UI_MAX_WIDTH]
    omega

/-- Witness for C4 at concrete columns below, inside and above the range. -/
theorem C4_clamp_bounds_witness :
    clampPos (-3) = 1 ∧
    clampPos 150 = (UI_MAX_WIDTH : Int) - 1 ∧
    clampPos 50 = 50 :=
  ⟨(C4_clamp_bounds (-3)).2.2.1 (by decide),
   (C4_clamp_bounds 150).2.2.2.1 (by decide),
   (C4_clamp_bounds 50).2.2.2.2.1 (by decide) (by decide)⟩

/-- Counterexample to C5: a task started 10:00 on the target date (today)
whose actual_complete is set but falls on the next day: the claim says the
strong interval ends at now's column (24), but the code projects the
off-date actual_complete (column 150) and the drawn interval reaches the
right edge, column 72. -/
theorem C5_counterexample :
    (Timeline.new 43200 0).date_includes exSpanTask.actual_start = true ∧
    (Timeline.new 43200 0).date_includes exSpanTask.actual_complete = false ∧
    (Timeline.new 43200 0).pos_of_now = some 24 ∧
    actual_end_pos 43200 (Timeline.new 43200 0) exSpanTask = 150 ∧
    specActualEndPos 43200 (Timeline.new 43200 0) exSpanTask = 24 ∧
    (((populate_task 43200 (Timeline.new 43200 0) exSpanTask 'a').canvas.getD 0
        []).getD 72 Pixel.default).content = '=' := by
  decide

/-- Claim C5 as amended: when actual_start falls on the target date, a
strong interval is queued from actual_start's column to an end column that
is actual_complete's column whenever actual_complete is set (whether or
not it falls on the target date), else now's column if the target date is
today, else the canvas's right edge. -/
theorem C5_actual_interval_end (now : Int) (tl : Timeline) (task : Task)
    (c : Char) :
    (task.actual_complete = none →
      actual_end_pos now tl task = tl.pos_of_now.getD ((UI_MAX_WIDTH : Int) - 1)) ∧
    (∀ dt, task.actual_complete = some dt →
      actual_end_pos now tl task = get_pos_in_row now dt) ∧
    (task.is_deleted = false →
      (tl.date_includes task.planned_start
        && tl.date_includes task.planned_complete) = false →
      tl.date_includes task.actual_start = true →
      populate_task now tl task c =
        { tl with canvas :=
            (populate_index_and_line tl.canvas
              (get_pos_in_row now (task.actual_start.getD 0))
              (actual_end_pos now tl task) c
              { content := '=', color := some task.color_of_status }).1 }) := by
  refine ⟨?_, ?_, ?_⟩
  · intro h
    simp [actual_end_pos, h]
  · intro dt h
    simp [actual_end_pos, h]
  · intro h1 h2 h3
    simp [populate_task, h1, h2, h3]

/-- Witness for C5 at concrete timelines and tasks. -/
theorem C5_actual_interval_end_witness :
    actual_end_pos 43200 (Timeline.new 43200 0) exOngoing
      = (Timeline.new 43200 0).pos_of_now.getD ((UI_MAX_WIDTH : Int) - 1) ∧
    actual_end_pos 43200 (Timeline.new 43200 0) exSpanTask
      = get_pos_in_row 43200 118800 ∧
    populate_task 43200 (Timeline.new 43200 0) exSpanTask 'a' =
      { Timeline.new 43200 0 with canvas :=
          (populate_index_and_line (Timeline.new 43200 0).canvas
            (get_pos_in_row 43200 (exSpanTask.actual_start.getD 0))
            (actual_end_pos 43200 (Timeline.new 43200 0) exSpanTask) 'a'
            { content := '=', color := some exSpanTask.color_of_status }).1 } :=
  ⟨(C5_actual_interval_end 43200 (Timeline.new 43200 0) exOngoing 'a').1 rfl,
   (C5_actual_interval_end 43200 (Timeline.new 43200 0) exSpanTask 'a').2.1
     118800 rfl,
   (C5_actual_interval_end 43200 (Timeline.new 43200 0) exSpanTask 'a').2.2
     rfl (by decide) (by decide)⟩

/-- Clamping acts as the identity on in-range whole columns. -/
lemma clampPos_toNat (s : Int) (h1 : 1 ≤ s) (h2 : s ≤ 72) :
    (clampPos s).toNat = s.toNat := by
  simp only [clampPos, UI_MAX_WIDTH]
  omega

/-- A fresh row has canvas width. -/
lemma new_row_length : new_row.length = 73 := by
  simp [new_row, UI_MAX_WIDTH]

/-- Splicing an in-range interval preserves the row width. -/
lemma put_in_row_length (row : List Pixel) (s e : Nat) (px : Pixel)
    (hrow : row.length = 73) (hse : s ≤ e) (he : e ≤ 72) :
    (put_in_row row s e px).length = 73 := by
  simp [put_in_row, hrow]
  omega

/-- Drawing an interval plus its letter preserves the row width. -/
lemma draw_row_length (row : List Pixel) (s e : Nat) (c : Char) (px : Pixel)
    (hrow : row.length = 73) (hse : s ≤ e) (he : e ≤ 72) :
    (draw_row row s e c px).length = 73 := by
  simp [draw_row, put_in_row_length row s e px hrow hse he]

/-- Cellwise description of the splice: the interval columns carry the new
pixel, all other columns are untouched. -/
lemma put_in_row_getD (row : List Pixel) (s e i : Nat) (px : Pixel)
    (hrow : row.length = 73) (hse : s ≤ e) (he : e ≤ 72) (hi : i < 73) :
    (put_in_row row s e px).getD i Pixel.default
      = if s ≤ i ∧ i ≤ e then px else row.getD i Pixel.default := by
  have hA : (row.take s).length = s := by
    simp [hrow]
    omega
  have hAB : (row.take s ++ List.replicate (e - s + 1) px).length = e + 1 := by
    simp [hA]
    omega
  rw [List.getD_eq_getElem?_getD, List.getD_eq_getElem?_getD]
  unfold put_in_row
  by_cases h2 : i ≤ e
  · rw [List.getElem?_append_left (by rw [hAB]; omega)]
    by_cases h1 : i < s
    · rw [List.getElem?_append_left (by rw [hA]; exact h1), List.getElem?_take,
        if_pos h1, if_neg (by omega)]
    · rw [List.getElem?_append_right (by rw [hA]; omega), hA,
        List.getElem?_replicate, if_pos (by omega), if_pos ⟨by omega, h2⟩]
      rfl
  · rw [List.getElem?_append_right (by rw [hAB]; omega), hAB,
      List.getElem?_drop]
    have hidx2 : e + 1 + (i - (e + 1)) = i := by omega
    rw [hidx2, if_neg (by omega)]

/-- Cellwise description of a drawn row: the letter sits immediately left
of the interval, the interval columns carry the glyph, and everything else
is untouched. -/
lemma draw_row_getD (row : List Pixel) (s e i : Nat) (c : Char) (px : Pixel)
    (hrow : row.length = 73) (hs : 1 ≤ s) (hse : s ≤ e) (he : e ≤ 72)
    (hi : i < 73) :
    (draw_row row s e c px).getD i Pixel.default
      = if i = s - 1 then { content := c, color := px.color }
        else if s ≤ i ∧ i ≤ e then px
        else row.getD i Pixel.default := by
  have hlen : (put_in_row row s e px).length = 73 :=
    put_in_row_length row s e px hrow hse he
  unfold draw_row
  rw [List.getD_eq_getElem?_getD, List.getElem?_set]
  by_cases h1 : s - 1 = i
  · rw [if_pos h1, if_pos (by omega), if_pos h1.symm]
    rfl
  · rw [if_neg h1, if_neg (fun hh => h1 hh.symm), ← List.getD_eq_getElem?_getD,
      put_in_row_getD row s e i px hrow hse he hi]

/-- Every cell of a fresh row is the blank pixel. -/
lemma new_row_getD (i : Nat) : new_row.getD i Pixel.default = Pixel.default := by
  rw [List.getD_eq_getElem?_getD]
  unfold new_row
  rw [List.getElem?_replicate]
  split <;> rfl

/-- Emptiness of the cells of a freshly drawn row: exactly the letter
column and the interval columns are occupied. -/
lemma draw_new_isEmpty (s e i : Nat) (c : Char) (px : Pixel)
    (hs : 1 ≤ s) (hse : s ≤ e) (he : e ≤ 72) (hi : i < 73)
    (hpx : px.content ≠ ' ') (hc : c ≠ ' ') :
    ((draw_row new_row s e c px).getD i Pixel.default).isEmpty
      = if s - 1 ≤ i ∧ i ≤ e then false else true := by
  rw [draw_row_getD new_row s e i c px new_row_length hs hse he hi]
  by_cases h1 : i = s - 1
  · rw [if_pos h1, if_pos (by omega)]
    simpa [Pixel.isEmpty] using hc
  · rw [if_neg h1]
    by_cases h2 : s ≤ i ∧ i ≤ e
    · rw [if_pos h2, if_pos (by omega)]
      simpa [Pixel.isEmpty] using hpx
    · rw [if_neg h2, if_neg (by omega), new_row_getD]
      rfl

/-- The fit test of a row is the emptiness of every cell from the letter
column through the interval's end. -/
lemma can_put_in_row_iff (row : List Pixel) (s e : Nat)
    (hrow : row.length = 73) (hs : 1 ≤ s) (hse : s ≤ e) (he : e ≤ 72) :
    can_put_in_row row s e = true ↔
      ∀ i, s - 1 ≤ i → i ≤ e → (row.getD i Pixel.default).isEmpty = true := by
  unfold can_put_in_row
  rw [List.all_eq_true]
  constructor
  · intro h i h1 h2
    apply h
    rw [List.mem_iff_getElem?]
    refine ⟨i - (s - 1), ?_⟩
    rw [List.getElem?_take, if_pos (by omega), List.getElem?_drop]
    have hidx : s - 1 + (i - (s - 1)) = i := by omega
    rw [hidx, List.getElem?_eq_getElem (by omega : i < row.length),
      List.getD_eq_getElem row Pixel.default (by omega : i < row.length)]
  · intro h x hx
    rw [List.mem_iff_getElem?] at hx
    obtain ⟨j, hj⟩ := hx
    rw [List.getElem?_take] at hj
    by_cases hlt : j < e + 1 - (s - 1)
    · rw [if_pos hlt, List.getElem?_drop] at hj
      have hx' : x = row.getD (s - 1 + j) Pixel.default := by
        rw [List.getD_eq_getElem?_getD, hj]
        rfl
      rw [hx']
      exact h (s - 1 + j) (by omega) (by omega)
    · rw [if_neg hlt] at hj
      exact absurd hj (by simp)

/-- First-index characterization of `position`, found case. -/
lemma position_eq_some {α : Type} (p : α → Bool) (l : List α) (r : Nat) (d : α)
    (h : position p l = some r) :
    r < l.length ∧ p (l.getD r d) = true ∧
      ∀ j, j < r → p (l.getD j d) = false := by
  induction l generalizing r with
  | nil => simp [position] at h
  | cons x xs ih =>
    rw [position] at h
    by_cases hpx : p x
    · rw [if_pos hpx] at h
      obtain rfl : (0 : Nat) = r := by injection h
      exact ⟨by simp, by simpa using hpx, by omega⟩
    · rw [if_neg hpx] at h
      rw [Option.map_eq_some'] at h
      obtain ⟨r', hr', rfl⟩ := h
      obtain ⟨ha, hb, hcc⟩ := ih r' hr'
      refine ⟨by simpa using Nat.succ_lt_succ ha, by simpa using hb, ?_⟩
      intro j hj
      cases j with
      | zero => simpa using hpx
      | succ j' =>
        rw [List.getD_cons_succ]
        exact hcc j' (by omega)

/-- First-index characterization of `position`, not-found case. -/
lemma position_eq_none {α : Type} (p : α → Bool) (l : List α) (d : α)
    (h : position p l = none) :
    ∀ j, j < l.length → p (l.getD j d) = false := by
  induction l with
  | nil => simp
  | cons x xs ih =>
    rw [position] at h
    by_cases hpx : p x
    · rw [if_pos hpx] at h
      exact absurd h (by simp)
    · rw [if_neg hpx, Option.map_eq_none'] at h
      intro j hj
      cases j with
      | zero => simpa using hpx
      | succ j' =>
        rw [List.getD_cons_succ]
        exact ih h j' (by simpa using hj)

/-- First-fit characterization of the row chosen by
`populate_index_and_line`: every earlier row fails the fit test, a found
row passes it, and when no row fits a fresh drawn row is appended. -/
lemma populate_first_fit (canvas : List (List Pixel)) (sp ep : Int)
    (c : Char) (px : Pixel) :
    (∀ j, j < (populate_index_and_line canvas sp ep c px).2 →
      can_put_in_row (canvas.getD j []) (clampPos sp).toNat
        (clampPos ep).toNat = false) ∧
    ((populate_index_and_line canvas sp ep c px).2 < canvas.length →
      can_put_in_row
        (canvas.getD (populate_index_and_line canvas sp ep c px).2 [])
        (clampPos sp).toNat (clampPos ep).toNat = true) ∧
    (populate_index_and_line canvas sp ep c px).2 ≤ canvas.length ∧
    ((populate_index_and_line canvas sp ep c px).2 = canvas.length →
      (populate_index_and_line canvas sp ep c px).1
        = canvas
            ++ [draw_row new_row (clampPos sp).toNat (clampPos ep).toNat c px]) := by
  cases hpos : position
      (fun row => can_put_in_row row (clampPos sp).toNat (clampPos ep).toNat)
      canvas with
  | some r =>
    obtain ⟨hlt, hput, hbefore⟩ := position_eq_some _ _ _ ([] : List Pixel) hpos
    have hres : populate_index_and_line canvas sp ep c px
        = (canvas.set r (draw_row (canvas.getD r []) (clampPos sp).toNat
            (clampPos ep).toNat c px), r) := by
      simp only [populate_index_and_line, hpos]
    rw [hres]
    exact ⟨fun j hj => by simpa using hbefore j hj,
      fun _ => by simpa using hput, le_of_lt hlt,
      fun heq => absurd heq (by omega)⟩
  | none =>
    have hall := position_eq_none _ _ ([] : List Pixel) hpos
    have hres : populate_index_and_line canvas sp ep c px
        = (canvas
            ++ [draw_row new_row (clampPos sp).toNat (clampPos ep).toNat c px],
           canvas.length) := by
      simp only [populate_index_and_line, hpos]
    rw [hres]
    exact ⟨fun j hj => by simpa using hall j hj,
      fun hlt => absurd hlt (lt_irrefl _), le_refl _, fun _ => rfl⟩

/-- On the empty canvas the first interval is drawn into a fresh row 0. -/
lemma populate_empty (sp ep : Int) (c : Char) (px : Pixel) :
    populate_index_and_line [] sp ep c px
      = ([draw_row new_row (clampPos sp).toNat (clampPos ep).toNat c px], 0) := by
  simp [populate_index_and_line, position]

/-- A second interval whose letter-extended column range avoids the first
drawn interval's letter-extended range fits the drawn row. -/
lemma can_put_draw_new_true (s1 e1 s2 e2 : Nat) (c : Char) (px : Pixel)
    (hs1 : 1 ≤ s1) (hse1 : s1 ≤ e1) (he1 : e1 ≤ 72)
    (hs2 : 1 ≤ s2) (hse2 : s2 ≤ e2) (he2 : e2 ≤ 72)
    (hpx : px.content ≠ ' ') (hc : c ≠ ' ')
    (hdisj : e1 < s2 - 1 ∨ e2 < s1 - 1) :
    can_put_in_row (draw_row new_row s1 e1 c px) s2 e2 = true := by
  rw [can_put_in_row_iff _ _ _
    (draw_row_length _ _ _ _ _ new_row_length hse1 he1) hs2 hse2 he2]
  intro i h1 h2
  rw [draw_new_isEmpty s1 e1 i c px hs1 hse1 he1 (by omega) hpx hc,
    if_neg (by omega)]

/-- A second interval whose letter-extended column range meets the first
drawn interval's letter-extended range does not fit the drawn row. -/
lemma can_put_draw_new_false (s1 e1 s2 e2 i : Nat) (c : Char) (px : Pixel)
    (hs1 : 1 ≤ s1) (hse1 : s1 ≤ e1) (he1 : e1 ≤ 72)
    (hs2 : 1 ≤ s2) (hse2 : s2 ≤ e2) (he2 : e2 ≤ 72)
    (hpx : px.content ≠ ' ') (hc : c ≠ ' ')
    (hi1 : s2 - 1 ≤ i) (hi2 : i ≤ e2) (hj1 : s1 - 1 ≤ i) (hj2 : i ≤ e1) :
    can_put_in_row (draw_row new_row s1 e1 c px) s2 e2 = false := by
  rw [← Bool.not_eq_true, can_put_in_row_iff _ _ _
    (draw_row_length _ _ _ _ _ new_row_length hse1 he1) hs2 hse2 he2]
  intro hall
  have h := hall i hi1 hi2
  rw [draw_new_isEmpty s1 e1 i c px hs1 hse1 he1 (by omega) hpx hc,
    if_pos ⟨hj1, hj2⟩] at h
  exact absurd h (by simp)

/-- Counterexample to C2: two tasks with disjoint on-date time intervals
(09:00 to 10:00 and 10:10 to 11:00 on day 0) do not pack into the same
row: the second interval's letter column (12) abuts the first interval's
last column (12), so the render uses two rows, the first letter in row 0
and the second in row 1. -/
theorem C2_counterexample :
    (36000 : Int) < 36600 ∧
    exTwoTaskCanvas.length = 2 ∧
    ((exTwoTaskCanvas.getD 0 []).getD 5 Pixel.default).content = 'a' ∧
    ((exTwoTaskCanvas.getD 1 []).getD 12 Pixel.default).content = 'b' := by
  decide

/-- Claim C2 as amended: every queued interval is placed by first-fit row
packing over its clamped target columns plus one extra letter column to
the left (first fitting row top-to-bottom, else a new appended row);
consequently, on an initially empty canvas, two intervals whose
letter-extended column ranges are disjoint (the second's letter column
must clear the first's drawn cells, not merely its time interval) pack
into the same row, two intervals with overlapping column ranges are placed
into different rows, and a third interval overlapping both of the first
two's drawn rows forces a third row. -/
theorem C2_row_packing (s1 e1 s2 e2 s3 e3 : Int) (c1 c2 c3 : Char)
    (px1 px2 px3 : Pixel)
    (hs1 : 1 ≤ s1) (hse1 : s1 ≤ e1) (he1 : e1 ≤ 72)
    (hs2 : 1 ≤ s2) (hse2 : s2 ≤ e2) (he2 : e2 ≤ 72)
    (hs3 : 1 ≤ s3) (hse3 : s3 ≤ e3) (he3 : e3 ≤ 72)
    (hp1 : px1.content ≠ ' ') (hc1 : c1 ≠ ' ')
    (hp2 : px2.content ≠ ' ') (hc2 : c2 ≠ ' ')
    (hp3 : px3.content ≠ ' ') (hc3 : c3 ≠ ' ') :
    (∀ canvas : List (List Pixel),
      (∀ j, j < (populate_index_and_line canvas s1 e1 c1 px1).2 →
        can_put_in_row (canvas.getD j []) s1.toNat e1.toNat = false) ∧
      ((populate_index_and_line canvas s1 e1 c1 px1).2 < canvas.length →
        can_put_in_row
          (canvas.getD (populate_index_and_line canvas s1 e1 c1 px1).2 [])
          s1.toNat e1.toNat = true) ∧
      (populate_index_and_line canvas s1 e1 c1 px1).2 ≤ canvas.length ∧
      ((populate_index_and_line canvas s1 e1 c1 px1).2 = canvas.length →
        (populate_index_and_line canvas s1 e1 c1 px1).1
          = canvas ++ [draw_row new_row s1.toNat e1.toNat c1 px1])) ∧
    (populate_index_and_line [] s1 e1 c1 px1).2 = 0 ∧
    ((e1 < s2 - 1 ∨ e2 < s1 - 1) →
      (populate_index_and_line (populate_index_and_line [] s1 e1 c1 px1).1
        s2 e2 c2 px2).2 = 0) ∧
    ((∃ i : Int, s1 ≤ i ∧ i ≤ e1 ∧ s2 ≤ i ∧ i ≤ e2) →
      (populate_index_and_line (populate_index_and_line [] s1 e1 c1 px1).1
        s2 e2 c2 px2).2 = 1) ∧
    ((∃ i : Int, s1 ≤ i ∧ i ≤ e1 ∧ s2 ≤ i ∧ i ≤ e2) →
      (∃ i : Int, s3 - 1 ≤ i ∧ i ≤ e3 ∧ s1 - 1 ≤ i ∧ i ≤ e1) →
      (∃ i : Int, s3 - 1 ≤ i ∧ i ≤ e3 ∧ s2 - 1 ≤ i ∧ i ≤ e2) →
      (populate_index_and_line
        (populate_index_and_line (populate_index_and_line [] s1 e1 c1 px1).1
          s2 e2 c2 px2).1 s3 e3 c3 px3).2 = 2) := by
  have hcl1 : (clampPos s1).toNat = s1.toNat := clampPos_toNat s1 hs1 (by omega)
  have hclE1 : (clampPos e1).toNat = e1.toNat :=
    clampPos_toNat e1 (by omega) he1
  have hcl2 : (clampPos s2).toNat = s2.toNat := clampPos_toNat s2 hs2 (by omega)
  have hclE2 : (clampPos e2).toNat = e2.toNat :=
    clampPos_toNat e2 (by omega) he2
  have hcl3 : (clampPos s3).toNat = s3.toNat := clampPos_toNat s3 hs3 (by omega)
  have hclE3 : (clampPos e3).toNat = e3.toNat :=
    clampPos_toNat e3 (by omega) he3
  have hrow1 : (populate_index_and_line [] s1 e1 c1 px1).1
      = [draw_row new_row s1.toNat e1.toNat c1 px1] := by
    rw [populate_empty, hcl1, hclE1]
  refine ⟨?_, ?_, ?_, ?_, ?_⟩
  · intro canvas
    have h := populate_first_fit canvas s1 e1 c1 px1
    rw [hcl1, hclE1] at h
    exact h
  · rw [populate_empty]
  · intro hd
    have hfit : can_put_in_row (draw_row new_row s1.toNat e1.toNat c1 px1)
        s2.toNat e2.toNat = true :=
      can_put_draw_new_true _ _ _ _ c1 px1 (by omega) (by omega) (by omega)
        (by omega) (by omega) (by omega) hp1 hc1 (by omega)
    rw [hrow1]
    simp only [populate_index_and_line, position, hcl2, hclE2, hfit, if_true]
  · intro hov
    obtain ⟨iw, hiw1, hiw2, hiw3, hiw4⟩ := hov
    have hnofit : can_put_in_row (draw_row new_row s1.toNat e1.toNat c1 px1)
        s2.toNat e2.toNat = false :=
      can_put_draw_new_false _ _ _ _ iw.toNat c1 px1 (by omega) (by omega)
        (by omega) (by omega) (by omega) (by omega) hp1 hc1 (by omega)
        (by omega) (by omega) (by omega)
    rw [hrow1]
    simp only [populate_index_and_line, position, hcl2, hclE2, hnofit,
      if_false, Bool.false_eq_true]
    rfl
  · intro hov h31 h32
    obtain ⟨iw, hiw1, hiw2, hiw3, hiw4⟩ := hov
    obtain ⟨ja, hja1, hja2, hja3, hja4⟩ := h31
    obtain ⟨jb, hjb1, hjb2, hjb3, hjb4⟩ := h32
    have hnofit : can_put_in_row (draw_row new_row s1.toNat e1.toNat c1 px1)
        s2.toNat e2.toNat = false :=
      can_put_draw_new_false _ _ _ _ iw.toNat c1 px1 (by omega) (by omega)
        (by omega) (by omega) (by omega) (by omega) hp1 hc1 (by omega)
        (by omega) (by omega) (by omega)
    have hnofit31 : can_put_in_row (draw_row new_row s1.toNat e1.toNat c1 px1)
        s3.toNat e3.toNat = false :=
      can_put_draw_new_false _ _ _ _ ja.toNat c1 px1 (by omega) (by omega)
        (by omega) (by omega) (by omega) (by omega) hp1 hc1 (by omega)
        (by omega) (by omega) (by omega)
    have hnofit32 : can_put_in_row (draw_row new_row s2.toNat e2.toNat c2 px2)
        s3.toNat e3.toNat = false :=
      can_put_draw_new_false _ _ _ _ jb.toNat c2 px2 (by omega) (by omega)
        (by omega) (by omega) (by omega) (by omega) hp2 hc2 (by omega)
        (by omega) (by omega) (by omega)
    have hcanvas2 : (populate_index_and_line
        (populate_index_and_line [] s1 e1 c1 px1).1 s2 e2 c2 px2).1
        = [draw_row new_row s1.toNat e1.toNat c1 px1,
           draw_row new_row s2.toNat e2.toNat c2 px2] := by
      rw [hrow1]
      simp only [populate_index_and_line, position, hcl2, hclE2, hnofit,
        if_false, Bool.false_eq_true]
      rfl
    rw [hcanvas2]
    simp only [populate_index_and_line, position, hcl3, hclE3, hnofit31,
      hnofit32, if_false, Bool.false_eq_true]
    rfl

/-- Witness for C2: concrete column ranges, letters and glyphs for the
extended-disjoint, the overlapping, and the three-row scenario. -/
theorem C2_row_packing_witness :
    (populate_index_and_line [] 6 12 'a' dashPixel).2 = 0 ∧
    (populate_index_and_line (populate_index_and_line [] 6 12 'a' dashPixel).1
      14 18 'b' dashPixel).2 = 0 ∧
    (populate_index_and_line (populate_index_and_line [] 6 12 'a' dashPixel).1
      10 18 'b' dashPixel).2 = 1 ∧
    (populate_index_and_line
      (populate_index_and_line (populate_index_and_line [] 6 12 'a' dashPixel).1
        10 18 'b' dashPixel).1 9 12 'c' dashPixel).2 = 2 := by
  have H1 := C2_row_packing 6 12 14 18 20 25 'a' 'b' 'c'
    dashPixel dashPixel dashPixel
    (by decide) (by decide) (by decide) (by decide) (by decide) (by decide)
    (by decide) (by decide) (by decide) (by decide) (by decide) (by decide)
    (by decide) (by decide) (by decide)
  have H2 := C2_row_packing 6 12 10 18 9 12 'a' 'b' 'c'
    dashPixel dashPixel dashPixel
    (by decide) (by decide) (by decide) (by decide) (by decide) (by decide)
    (by decide) (by decide) (by decide) (by decide) (by decide) (by decide)
    (by decide) (by decide) (by decide)
  exact ⟨H1.2.1, H1.2.2.1 (Or.inl (by decide)),
    H2.2.2.2.1 ⟨10, by decide, by decide, by decide, by decide⟩,
    H2.2.2.2.2 ⟨10, by decide, by decide, by decide, by decide⟩
      ⟨8, by decide, by decide, by decide, by decide⟩
      ⟨9, by decide, by decide, by decide, by decide⟩⟩

end Arenta
